import Mathlib

/-!
Verification of the merkle-root upload workflow
(`src/tip-distributor/src/merkle_root_upload_workflow.rs`).

The workflow is embedded as a pure function over an explicit environment:
every RPC / file-system interaction of the Rust code is represented by a
field of `Env` holding the value that interaction would return (`none` /
an error constructor meaning the interaction fails, which the Rust code
turns into a panic via `.expect`).  Machine integers (`u64`) are modelled
as `Nat`: all quantities involved (list lengths realizable in memory,
lamport balances, fee products) are far below `2 ^ 64`, so `u64`
arithmetic agrees with `Nat` arithmetic on every reachable input.
-/

namespace MerkleRootUpload

/-- An on-ledger address (`solana_sdk::pubkey::Pubkey`), abstracted to `Nat`. -/
abbrev Pubkey := Nat

/-- `solana_program::fee_calculator::DEFAULT_TARGET_LAMPORTS_PER_SIGNATURE`. -/
def DEFAULT_TARGET_LAMPORTS_PER_SIGNATURE : Nat := 10000

/-- `solana_program::native_token::LAMPORTS_PER_SOL`. -/
def LAMPORTS_PER_SOL : Nat := 1000000000

/-- `MAX_RETRY_DURATION` from the source (60 s), in seconds. -/
def MAX_RETRY_DURATION : Nat := 60

/-- One reward-distribution tree of the loaded collection
(`GeneratedMerkleTree`); `merkle_root` holds the 32 root bytes
(`tree.merkle_root.to_bytes()` in the source). -/
structure GeneratedMerkleTree where
  tip_distribution_account : Pubkey
  merkle_root_upload_authority : Pubkey
  merkle_root : List Nat
  max_total_claim : Nat
  max_num_nodes : Nat
deriving DecidableEq, Repr

/-- The optional `merkle_root` record of an on-ledger
`TipDistributionAccount`: stored `root` bytes and `total_funds_claimed`. -/
structure MerkleRootRecord where
  root : List Nat
  total_funds_claimed : Nat
deriving DecidableEq, Repr

/-- The deserialized on-ledger `TipDistributionAccount` state. -/
structure TipDistributionAccount where
  merkle_root : Option MerkleRootRecord
deriving DecidableEq, Repr

/-- Outcome of `rpc_client.get_account` followed by
`TipDistributionAccount::try_deserialize` for one address:
the fetch itself fails (including account-not-found), the fetched bytes
fail to deserialize, or a deserialized account is obtained. -/
inductive GetAccountResult
  | fetchErr
  | deserErr
  | ok (acc : TipDistributionAccount)
deriving DecidableEq, Repr

/-- The `.expect` / `panic!` sites of `upload_merkle_root`, in source order. -/
inductive PanicKind
  | readCollectionFailed
  | readKeypairFailed
  | getBlockhashFailed
  | getBalanceFailed
  | insufficientFunds (desired balance deposit : Nat)
  | accountFetchFailed (pk : Pubkey)
  | accountDeserializeFailed (pk : Pubkey)
deriving DecidableEq, Repr

/-- The declared error type of the Rust function
(`MerkleRootUploadError`): `IoError` and `JsonError` variants. -/
inductive MerkleRootUploadError
  | IoError
  | JsonError
deriving DecidableEq, Repr

/-- Arguments of the upload-root instruction (`UploadMerkleRootArgs`). -/
structure UploadMerkleRootArgs where
  root : List Nat
  max_total_claim : Nat
  max_num_nodes : Nat
deriving DecidableEq, Repr

/-- Accounts of the upload-root instruction (`UploadMerkleRootAccounts`). -/
structure UploadMerkleRootAccounts where
  config : Pubkey
  merkle_root_upload_authority : Pubkey
  tip_distribution_account : Pubkey
deriving DecidableEq, Repr

/-- Modelled from the spec: the Program SDK's "upload root" instruction,
"construction of the upload root instruction from program address,
arguments (root, max_total_claim, max_num_nodes), and accounts" — the SDK
crate (`tip_distribution::sdk::instruction`) is not under src/. -/
structure Instruction where
  program_id : Pubkey
  args : UploadMerkleRootArgs
  accounts : UploadMerkleRootAccounts
deriving DecidableEq, Repr

/-- Modelled from the spec: `upload_merkle_root_ix` of the SDK builds the
instruction from the program address, arguments and accounts. -/
def upload_merkle_root_ix (program_id : Pubkey) (args : UploadMerkleRootArgs)
    (accounts : UploadMerkleRootAccounts) : Instruction :=
  ⟨program_id, args, accounts⟩

/-- Modelled from the spec: a signed transaction as built by
`Transaction::new_signed_with_payer` (the ledger SDK is not under src/):
its instruction list, fee payer, signers and validity token
("recent blockhash", abstracted to `Nat`). -/
structure Transaction where
  instructions : List Instruction
  fee_payer : Option Pubkey
  signers : List Pubkey
  recent_blockhash : Nat
deriving DecidableEq, Repr

/-- Modelled from the spec: `Transaction::new_signed_with_payer` packs
instructions, payer, signers and the validity token into one transaction. -/
def Transaction.new_signed_with_payer (ixs : List Instruction)
    (payer : Option Pubkey) (signers : List Pubkey) (bh : Nat) : Transaction :=
  ⟨ixs, payer, signers, bh⟩

/-- Modelled from the spec: `Config::SEED`, "a known seed" for the
per-program configuration account, the byte string CONFIG_ACCOUNT
(the `tip_distribution::state` crate is not under src/). -/
def Config.SEED : List Nat :=
  [67, 79, 78, 70, 73, 71, 95, 65, 67, 67, 79, 85, 78, 84]

/-- The environment of one run: each field is the value a named external
interaction of the Rust code returns (`none` / error meaning the
interaction fails and the `.expect` panics).
`find_program_address` is the SDK's deterministic derivation of an address
from a seed and a program id; `confirmed t tx` tells whether transaction
`tx` is observed confirmed at time `t`; `roundPause` is the inter-round
pause of the retry submitter. -/
structure Env where
  readCollection : Option (List GeneratedMerkleTree)
  readKeypair : Option Pubkey
  find_program_address : List Nat → Pubkey → Pubkey
  getLatestBlockhash : Option Nat
  getBalance : Option Nat
  getAccount : Pubkey → GetAccountResult
  confirmed : Nat → Transaction → Bool
  roundPause : Nat

/-- The staleness decision of lines 96–102: with a root on record, upload
iff `total_funds_claimed == 0` and the stored root bytes differ from the
tree's root bytes; with no root on record, upload. -/
def needs_upload (fetched : TipDistributionAccount)
    (tree : GeneratedMerkleTree) : Bool :=
  match fetched.merkle_root with
  | some merkle_root =>
      merkle_root.total_funds_claimed == 0
        && merkle_root.root != tree.merkle_root
  | none => true

/-- The staleness loop of lines 84–107: for each candidate in order, fetch
and deserialize its distribution account (a failure of either panics the
run), and collect the candidates that `needs_upload`. -/
def stalenessLoop (getAccount : Pubkey → GetAccountResult) :
    List GeneratedMerkleTree → Except PanicKind (List GeneratedMerkleTree)
  | [] => .ok []
  | tree :: rest =>
    match getAccount tree.tip_distribution_account with
    | .fetchErr => .error (.accountFetchFailed tree.tip_distribution_account)
    | .deserErr =>
        .error (.accountDeserializeFailed tree.tip_distribution_account)
    | .ok fetched =>
      match stalenessLoop getAccount rest with
      | .error k => .error k
      | .ok tail =>
          .ok (if needs_upload fetched tree then tree :: tail else tail)

/-- The transaction built for one tree needing update (lines 113–133):
one upload-root instruction, the signer as fee payer and sole signer,
stamped with the run's validity token. -/
def buildTransaction (tip_distribution_program_id tip_distribution_config
    signer : Pubkey) (recent_blockhash : Nat)
    (tree : GeneratedMerkleTree) : Transaction :=
  Transaction.new_signed_with_payer
    [upload_merkle_root_ix tip_distribution_program_id
      ⟨tree.merkle_root, tree.max_total_claim, tree.max_num_nodes⟩
      ⟨tip_distribution_config, signer, tree.tip_distribution_account⟩]
    (some signer) [signer] recent_blockhash

/-- Result of the bounded retry submitter: the times at which submission
rounds were issued and the transactions still unconfirmed at the end. -/
structure RetryResult where
  roundStarts : List Nat
  unconfirmed : List Transaction
deriving DecidableEq, Repr

/-- Modelled from the spec: the rounds of `send_transactions_with_retry`
(defined in the crate root, not under src/): "an explicit loop with a
deadline check, a per-round outstanding-set computation, and a short
inter-round pause".  A round is issued only while the deadline `maxDur`
has not elapsed; each round submits the outstanding subset and removes
the transactions observed confirmed; `fuel` is a structural-recursion
bound chosen large enough (see `sendTransactionsWithRetry`) that it never
runs out before the deadline check stops the loop. -/
def retryRounds (confirmed : Nat → Transaction → Bool) (pause maxDur : Nat) :
    Nat → Nat → List Transaction → RetryResult
  | _, _, [] => ⟨[], []⟩
  | 0, _, outstanding => ⟨[], outstanding⟩
  | fuel + 1, now, outstanding =>
    if maxDur ≤ now then ⟨[], outstanding⟩
    else
      let next := outstanding.filter (fun tx => !(confirmed now tx))
      let r := retryRounds confirmed pause maxDur fuel (now + pause + 1) next
      ⟨now :: r.roundStarts, r.unconfirmed⟩

/-- Modelled from the spec: `send_transactions_with_retry`
("submit every transaction and keep retrying submission for any
transaction not yet observed as confirmed, until either all are confirmed
or the maximum duration has elapsed").  Rounds start at time 0, the time
the validity token was obtained. -/
def sendTransactionsWithRetry (confirmed : Nat → Transaction → Bool)
    (pause maxDur : Nat) (transactions : List Transaction) : RetryResult :=
  retryRounds confirmed pause maxDur (maxDur + 1) 0 transactions

/-- Everything observable about one run of `upload_merkle_root`:
whether it panicked (and where), the value it returned when it returned
(the Rust function's declared `Result` type), the selected candidate
trees, the trees found needing update, the transactions built, and the
retry submitter's outcome.  Fields past the panic point keep their empty
defaults. -/
structure RunResult where
  panicked : Option PanicKind
  returned : Option (Except MerkleRootUploadError Unit)
  selected : List GeneratedMerkleTree
  treesNeedingUpdate : List GeneratedMerkleTree
  transactions : List Transaction
  retry : RetryResult

/-- A run that panicked with `k` after selecting `sel` and collecting
`upd`: nothing was built or submitted. -/
def panicResult (k : PanicKind) (sel upd : List GeneratedMerkleTree) :
    RunResult :=
  ⟨some k, none, sel, upd, [], ⟨[], []⟩⟩

/-- The whole workflow `upload_merkle_root` (lines 36–139), in source
order: read the collection and keypair, derive the configuration address,
fetch the validity token, select the signer's trees, preflight the
balance, run the staleness loop, build one transaction per stale tree and
hand the batch to the retry submitter; every `.expect`/`panic!` of the
source becomes a `panicResult`. -/
def upload_merkle_root (env : Env) (tip_distribution_program_id : Pubkey) :
    RunResult :=
  match env.readCollection with
  | none => panicResult .readCollectionFailed [] []
  | some generated_merkle_trees =>
  match env.readKeypair with
  | none => panicResult .readKeypairFailed [] []
  | some signer =>
  let tip_distribution_config :=
    env.find_program_address Config.SEED tip_distribution_program_id
  match env.getLatestBlockhash with
  | none => panicResult .getBlockhashFailed [] []
  | some recent_blockhash =>
  let trees := generated_merkle_trees.filter
    (fun tree => tree.merkle_root_upload_authority == signer)
  match env.getBalance with
  | none => panicResult .getBalanceFailed trees []
  | some initial_balance =>
  let desired_balance :=
    trees.length * DEFAULT_TARGET_LAMPORTS_PER_SIGNATURE
  if initial_balance < desired_balance then
    panicResult
      (.insufficientFunds desired_balance initial_balance
        ((desired_balance - initial_balance + LAMPORTS_PER_SOL - 1)
          / LAMPORTS_PER_SOL))
      trees []
  else
  match stalenessLoop env.getAccount trees with
  | .error k => panicResult k trees []
  | .ok trees_needing_update =>
    let transactions := trees_needing_update.map
      (buildTransaction tip_distribution_program_id tip_distribution_config
        signer recent_blockhash)
    ⟨none, some (.ok ()), trees, trees_needing_update, transactions,
      sendTransactionsWithRetry env.confirmed env.roundPause
        MAX_RETRY_DURATION transactions⟩

/-- The staleness predicate as seen from a candidate tree through the
fetch function: `true` iff the tree's account fetches and deserializes
successfully and `needs_upload` holds for it. -/
def fetchedNeeds (getAccount : Pubkey → GetAccountResult)
    (tree : GeneratedMerkleTree) : Bool :=
  match getAccount tree.tip_distribution_account with
  | .ok fetched => needs_upload fetched tree
  | _ => false

/-- Whether a run result is the Funds Preflight abort. -/
def abortsPreflight (r : RunResult) : Bool :=
  match r.panicked with
  | some (.insufficientFunds _ _ _) => true
  | _ => false

/-! ### Helper lemmas about the staleness loop -/

theorem stalenessLoop_ok (g : Pubkey → GetAccountResult) :
    ∀ (ts l : List GeneratedMerkleTree), stalenessLoop g ts = .ok l →
      l = ts.filter (fetchedNeeds g)
  | [], l, h => by
      simp only [stalenessLoop] at h
      cases h
      rfl
  | tree :: rest, l, h => by
      simp only [stalenessLoop] at h
      cases hg : g tree.tip_distribution_account with
      | fetchErr => rw [hg] at h; cases h
      | deserErr => rw [hg] at h; cases h
      | ok fetched =>
          rw [hg] at h
          cases hr : stalenessLoop g rest with
          | error k => rw [hr] at h; cases h
          | ok tail =>
              rw [hr] at h
              cases h
              have ih := stalenessLoop_ok g rest tail hr
              simp only [List.filter_cons, fetchedNeeds, hg, ← ih]

theorem stalenessLoop_error_kind (g : Pubkey → GetAccountResult) :
    ∀ (ts : List GeneratedMerkleTree) (k : PanicKind),
      stalenessLoop g ts = .error k →
      ∃ pk, k = .accountFetchFailed pk ∨ k = .accountDeserializeFailed pk
  | [], k, h => by simp [stalenessLoop] at h
  | tree :: rest, k, h => by
      simp only [stalenessLoop] at h
      cases hg : g tree.tip_distribution_account with
      | fetchErr =>
          rw [hg] at h; cases h
          exact ⟨tree.tip_distribution_account, Or.inl rfl⟩
      | deserErr =>
          rw [hg] at h; cases h
          exact ⟨tree.tip_distribution_account, Or.inr rfl⟩
      | ok fetched =>
          rw [hg] at h
          cases hr : stalenessLoop g rest with
          | error k2 =>
              rw [hr] at h; cases h
              exact stalenessLoop_error_kind g rest k hr
          | ok tail => rw [hr] at h; cases h

theorem stalenessLoop_fail_of_mem (g : Pubkey → GetAccountResult)
    (tree : GeneratedMerkleTree) :
    ∀ ts : List GeneratedMerkleTree, tree ∈ ts →
      g tree.tip_distribution_account = .fetchErr →
      ∃ k, stalenessLoop g ts = .error k
  | [], hmem, _ => absurd hmem (List.not_mem_nil tree)
  | t :: rest, hmem, hg => by
      simp only [stalenessLoop]
      cases hgt : g t.tip_distribution_account with
      | fetchErr => exact ⟨_, rfl⟩
      | deserErr => exact ⟨_, rfl⟩
      | ok fetched =>
          have hne : tree ≠ t := by
            intro he; rw [he] at hg; rw [hg] at hgt; cases hgt
          have hrest : tree ∈ rest := by
            cases List.mem_cons.mp hmem with
            | inl h => exact absurd h hne
            | inr h => exact h
          obtain ⟨k, hk⟩ := stalenessLoop_fail_of_mem g tree rest hrest hg
          rw [hk]
          exact ⟨k, rfl⟩

/-! ### Run-shape helper lemmas -/

theorem run_selected (env : Env) (pid : Pubkey)
    (col : List GeneratedMerkleTree) (signer : Pubkey) (bh : Nat)
    (hc : env.readCollection = some col) (hk : env.readKeypair = some signer)
    (hbh : env.getLatestBlockhash = some bh) :
    (upload_merkle_root env pid).selected
      = col.filter (fun t => t.merkle_root_upload_authority == signer) := by
  simp only [upload_merkle_root, hc, hk, hbh]
  cases env.getBalance with
  | none => rfl
  | some bal =>
      simp only []
      split
      · rfl
      · split <;> rfl

theorem run_preflight_lt (env : Env) (pid : Pubkey)
    (col : List GeneratedMerkleTree) (signer : Pubkey) (bh bal : Nat)
    (hc : env.readCollection = some col) (hk : env.readKeypair = some signer)
    (hbh : env.getLatestBlockhash = some bh)
    (hbal : env.getBalance = some bal)
    (hlt : bal < (col.filter
        (fun t => t.merkle_root_upload_authority == signer)).length
      * DEFAULT_TARGET_LAMPORTS_PER_SIGNATURE) :
    upload_merkle_root env pid =
      panicResult
        (.insufficientFunds
          ((col.filter (fun t => t.merkle_root_upload_authority == signer)).length
            * DEFAULT_TARGET_LAMPORTS_PER_SIGNATURE)
          bal
          (((col.filter (fun t => t.merkle_root_upload_authority == signer)).length
              * DEFAULT_TARGET_LAMPORTS_PER_SIGNATURE
            - bal + LAMPORTS_PER_SOL - 1) / LAMPORTS_PER_SOL))
        (col.filter (fun t => t.merkle_root_upload_authority == signer)) [] := by
  simp only [upload_merkle_root, hc, hk, hbh, hbal, if_pos hlt]

theorem run_staleness_error (env : Env) (pid : Pubkey)
    (col : List GeneratedMerkleTree) (signer : Pubkey) (bh bal : Nat)
    (k : PanicKind)
    (hc : env.readCollection = some col) (hk : env.readKeypair = some signer)
    (hbh : env.getLatestBlockhash = some bh)
    (hbal : env.getBalance = some bal)
    (hge : ¬ bal < (col.filter
        (fun t => t.merkle_root_upload_authority == signer)).length
      * DEFAULT_TARGET_LAMPORTS_PER_SIGNATURE)
    (hst : stalenessLoop env.getAccount
        (col.filter (fun t => t.merkle_root_upload_authority == signer))
      = .error k) :
    upload_merkle_root env pid =
      panicResult k
        (col.filter (fun t => t.merkle_root_upload_authority == signer)) [] := by
  simp only [upload_merkle_root, hc, hk, hbh, hbal, if_neg hge, hst]

theorem run_success (env : Env) (pid : Pubkey)
    (col : List GeneratedMerkleTree) (signer : Pubkey) (bh bal : Nat)
    (upd : List GeneratedMerkleTree)
    (hc : env.readCollection = some col) (hk : env.readKeypair = some signer)
    (hbh : env.getLatestBlockhash = some bh)
    (hbal : env.getBalance = some bal)
    (hge : ¬ bal < (col.filter
        (fun t => t.merkle_root_upload_authority == signer)).length
      * DEFAULT_TARGET_LAMPORTS_PER_SIGNATURE)
    (hst : stalenessLoop env.getAccount
        (col.filter (fun t => t.merkle_root_upload_authority == signer))
      = .ok upd) :
    upload_merkle_root env pid =
      ⟨none, some (.ok ()),
        col.filter (fun t => t.merkle_root_upload_authority == signer),
        upd,
        upd.map (buildTransaction pid
          (env.find_program_address Config.SEED pid) signer bh),
        sendTransactionsWithRetry env.confirmed env.roundPause
          MAX_RETRY_DURATION
          (upd.map (buildTransaction pid
            (env.find_program_address Config.SEED pid) signer bh))⟩ := by
  simp only [upload_merkle_root, hc, hk, hbh, hbal, if_neg hge, hst]

/-! ### Helper lemmas about the retry submitter -/

theorem retryRounds_starts_lt (conf : Nat → Transaction → Bool)
    (pause maxDur : Nat) :
    ∀ (fuel now : Nat) (outstanding : List Transaction) (s : Nat),
      s ∈ (retryRounds conf pause maxDur fuel now outstanding).roundStarts →
      s < maxDur
  | fuel, now, [], s, h => by
      cases fuel <;> simp [retryRounds] at h
  | 0, now, t :: ts, s, h => by simp [retryRounds] at h
  | fuel + 1, now, t :: ts, s, h => by
      simp only [retryRounds] at h
      by_cases hd : maxDur ≤ now
      · rw [if_pos hd] at h
        simp at h
      · rw [if_neg hd] at h
        simp only [List.mem_cons] at h
        cases h with
        | inl he => omega
        | inr hm =>
            exact retryRounds_starts_lt conf pause maxDur fuel _ _ s hm

theorem retryRounds_unconfirmed (conf : Nat → Transaction → Bool)
    (pause maxDur : Nat) (tx : Transaction)
    (hnever : ∀ n, conf n tx = false) :
    ∀ (fuel now : Nat) (outstanding : List Transaction),
      tx ∈ outstanding →
      tx ∈ (retryRounds conf pause maxDur fuel now outstanding).unconfirmed
  | fuel, _, [], h => absurd h (List.not_mem_nil tx)
  | 0, now, t :: ts, h => by
      simp only [retryRounds]
      exact h
  | fuel + 1, now, t :: ts, h => by
      simp only [retryRounds]
      by_cases hd : maxDur ≤ now
      · rw [if_pos hd]
        exact h
      · rw [if_neg hd]
        exact retryRounds_unconfirmed conf pause maxDur tx hnever fuel _ _
          (List.mem_filter.mpr ⟨h, by simp [hnever now]⟩)

/-- Full case analysis of a run: either it panicked (nothing built, no
submission round issued, nothing returned), or every external interaction
succeeded, the preflight passed, the staleness loop completed, and the
result is the success record. -/
theorem run_cases (env : Env) (pid : Pubkey) :
    ((upload_merkle_root env pid).panicked.isSome = true
      ∧ (upload_merkle_root env pid).returned = none
      ∧ (upload_merkle_root env pid).treesNeedingUpdate = []
      ∧ (upload_merkle_root env pid).transactions = []
      ∧ (upload_merkle_root env pid).retry = ⟨[], []⟩)
    ∨ (∃ col signer bh bal upd,
        env.readCollection = some col ∧ env.readKeypair = some signer
        ∧ env.getLatestBlockhash = some bh ∧ env.getBalance = some bal
        ∧ ¬ bal < (col.filter
              (fun t => t.merkle_root_upload_authority == signer)).length
            * DEFAULT_TARGET_LAMPORTS_PER_SIGNATURE
        ∧ stalenessLoop env.getAccount
            (col.filter (fun t => t.merkle_root_upload_authority == signer))
          = .ok upd
        ∧ upload_merkle_root env pid =
            ⟨none, some (.ok ()),
              col.filter (fun t => t.merkle_root_upload_authority == signer),
              upd,
              upd.map (buildTransaction pid
                (env.find_program_address Config.SEED pid) signer bh),
              sendTransactionsWithRetry env.confirmed env.roundPause
                MAX_RETRY_DURATION
                (upd.map (buildTransaction pid
                  (env.find_program_address Config.SEED pid) signer bh))⟩) := by
  cases hc : env.readCollection with
  | none => left; simp [upload_merkle_root, hc, panicResult]
  | some col =>
    cases hk : env.readKeypair with
    | none => left; simp [upload_merkle_root, hc, hk, panicResult]
    | some signer =>
      cases hbh : env.getLatestBlockhash with
      | none => left; simp [upload_merkle_root, hc, hk, hbh, panicResult]
      | some bh =>
        cases hbal : env.getBalance with
        | none => left; simp [upload_merkle_root, hc, hk, hbh, hbal, panicResult]
        | some bal =>
          by_cases hlt : bal < (col.filter
              (fun t => t.merkle_root_upload_authority == signer)).length
            * DEFAULT_TARGET_LAMPORTS_PER_SIGNATURE
          · left
            rw [run_preflight_lt env pid col signer bh bal hc hk hbh hbal hlt]
            simp [panicResult]
          · cases hst : stalenessLoop env.getAccount
                (col.filter (fun t => t.merkle_root_upload_authority == signer)) with
            | error k =>
                left
                rw [run_staleness_error env pid col signer bh bal k
                  hc hk hbh hbal hlt hst]
                simp [panicResult]
            | ok upd =>
                right
                exact ⟨col, signer, bh, bal, upd, rfl, rfl, rfl, rfl, hlt, hst,
                  run_success env pid col signer bh bal upd
                    hc hk hbh hbal hlt hst⟩

/-- Any tree collected as needing update had a successfully fetched and
deserialized account satisfying `needs_upload`. -/
theorem mem_update_fetch_ok (env : Env) (pid : Pubkey)
    (tree : GeneratedMerkleTree)
    (hmem : tree ∈ (upload_merkle_root env pid).treesNeedingUpdate) :
    ∃ acc, env.getAccount tree.tip_distribution_account = .ok acc
      ∧ needs_upload acc tree = true := by
  rcases run_cases env pid with ⟨_, _, hupd, _, _⟩ |
    ⟨col, signer, bh, bal, upd, _, _, _, _, _, hst, heq⟩
  · rw [hupd] at hmem
    exact absurd hmem (List.not_mem_nil tree)
  · rw [heq] at hmem
    have hupd := stalenessLoop_ok env.getAccount _ upd hst
    rw [hupd] at hmem
    have hn := (List.mem_filter.mp hmem).2
    unfold fetchedNeeds at hn
    cases hg : env.getAccount tree.tip_distribution_account with
    | fetchErr => rw [hg] at hn; cases hn
    | deserErr => rw [hg] at hn; cases hn
    | ok acc => rw [hg] at hn; exact ⟨acc, rfl, hn⟩

/-- Ceiling characterization of the rounded-up deposit: for the coin size
`LAMPORTS_PER_SOL`, `(s + LAMPORTS_PER_SOL - 1) / LAMPORTS_PER_SOL` is an
upper multiple bound of `s` and the least such bound. -/
theorem deposit_ceil_char (s : Nat) :
    s ≤ ((s + LAMPORTS_PER_SOL - 1) / LAMPORTS_PER_SOL) * LAMPORTS_PER_SOL
    ∧ ∀ m : Nat, s ≤ m * LAMPORTS_PER_SOL →
        (s + LAMPORTS_PER_SOL - 1) / LAMPORTS_PER_SOL ≤ m := by
  unfold LAMPORTS_PER_SOL
  constructor
  · omega
  · intro m hm
    omega

/-! ### Claim theorems -/

/-- C3: a tree of the loaded collection is selected iff its
`merkle_root_upload_authority` equals the signer's address; the selection
is the pure `List.filter` of that predicate, an order-preserving
subsequence of the collection. -/
theorem tree_selector_filter (env : Env) (pid : Pubkey)
    (col : List GeneratedMerkleTree) (signer : Pubkey) (bh : Nat)
    (hc : env.readCollection = some col) (hk : env.readKeypair = some signer)
    (hbh : env.getLatestBlockhash = some bh) :
    ((upload_merkle_root env pid).selected
        = col.filter (fun t => t.merkle_root_upload_authority == signer))
    ∧ (∀ t, t ∈ (upload_merkle_root env pid).selected ↔
        t ∈ col ∧ t.merkle_root_upload_authority = signer)
    ∧ (upload_merkle_root env pid).selected.Sublist col := by
  have hsel := run_selected env pid col signer bh hc hk hbh
  refine ⟨hsel, ?_, ?_⟩
  · intro t
    rw [hsel, List.mem_filter]
    simp
  · rw [hsel]
    exact List.filter_sublist col

/-- C4: the Funds Preflight aborts iff the fetched balance is strictly
below `candidateCount * DEFAULT_TARGET_LAMPORTS_PER_SIGNATURE`; at exact
equality it never aborts. -/
theorem funds_preflight_boundary (env : Env) (pid : Pubkey)
    (col : List GeneratedMerkleTree) (signer : Pubkey) (bh bal : Nat)
    (hc : env.readCollection = some col) (hk : env.readKeypair = some signer)
    (hbh : env.getLatestBlockhash = some bh)
    (hbal : env.getBalance = some bal) :
    (abortsPreflight (upload_merkle_root env pid) = true
      ↔ bal < (col.filter
            (fun t => t.merkle_root_upload_authority == signer)).length
          * DEFAULT_TARGET_LAMPORTS_PER_SIGNATURE)
    ∧ (bal = (col.filter
            (fun t => t.merkle_root_upload_authority == signer)).length
          * DEFAULT_TARGET_LAMPORTS_PER_SIGNATURE
        → abortsPreflight (upload_merkle_root env pid) = false) := by
  by_cases hlt : bal < (col.filter
      (fun t => t.merkle_root_upload_authority == signer)).length
    * DEFAULT_TARGET_LAMPORTS_PER_SIGNATURE
  · rw [run_preflight_lt env pid col signer bh bal hc hk hbh hbal hlt]
    constructor
    · simp [abortsPreflight, panicResult, hlt]
    · intro he
      exact absurd hlt (by simp [he])
  · have habort : abortsPreflight (upload_merkle_root env pid) = false := by
      cases hst : stalenessLoop env.getAccount
          (col.filter (fun t => t.merkle_root_upload_authority == signer)) with
      | error k =>
          rw [run_staleness_error env pid col signer bh bal k
            hc hk hbh hbal hlt hst]
          obtain ⟨pk, hpk⟩ := stalenessLoop_error_kind env.getAccount _ k hst
          cases hpk with
          | inl h => rw [h]; rfl
          | inr h => rw [h]; rfl
      | ok upd =>
          rw [run_success env pid col signer bh bal upd hc hk hbh hbal hlt hst]
          rfl
    refine ⟨?_, fun _ => habort⟩
    rw [habort]
    simp [hlt]

/-- C1: the staleness decision follows the four-case table — no root on
record means update; root with zero claims and differing bytes means
update; root with zero claims and equal bytes means no update; root with
nonzero claims means no update — and the trees-needing-update list is
exactly the order-preserving filter of the candidates by that predicate. -/
theorem staleness_decision_table (env : Env) (pid : Pubkey)
    (col : List GeneratedMerkleTree) (signer : Pubkey) (bh bal : Nat)
    (upd : List GeneratedMerkleTree)
    (hc : env.readCollection = some col) (hk : env.readKeypair = some signer)
    (hbh : env.getLatestBlockhash = some bh)
    (hbal : env.getBalance = some bal)
    (hge : ¬ bal < (col.filter
        (fun t => t.merkle_root_upload_authority == signer)).length
      * DEFAULT_TARGET_LAMPORTS_PER_SIGNATURE)
    (hst : stalenessLoop env.getAccount
        (col.filter (fun t => t.merkle_root_upload_authority == signer))
      = .ok upd) :
    ((upload_merkle_root env pid).treesNeedingUpdate
        = (upload_merkle_root env pid).selected.filter
            (fetchedNeeds env.getAccount))
    ∧ (upload_merkle_root env pid).treesNeedingUpdate.Sublist
        (upload_merkle_root env pid).selected
    ∧ (∀ t, needs_upload ⟨none⟩ t = true)
    ∧ (∀ mr t, mr.total_funds_claimed = 0 → mr.root ≠ t.merkle_root →
        needs_upload ⟨some mr⟩ t = true)
    ∧ (∀ mr t, mr.total_funds_claimed = 0 → mr.root = t.merkle_root →
        needs_upload ⟨some mr⟩ t = false)
    ∧ (∀ mr t, 0 < mr.total_funds_claimed →
        needs_upload ⟨some mr⟩ t = false) := by
  rw [run_success env pid col signer bh bal upd hc hk hbh hbal hge hst]
  refine ⟨?_, ?_, fun t => rfl, ?_, ?_, ?_⟩
  · exact stalenessLoop_ok env.getAccount _ upd hst
  · rw [stalenessLoop_ok env.getAccount _ upd hst]
    exact List.filter_sublist _
  · intro mr t h0 hne
    simp [needs_upload, h0, hne]
  · intro mr t h0 he
    simp [needs_upload, h0, he]
  · intro mr t hpos
    have h0 : mr.total_funds_claimed ≠ 0 := Nat.pos_iff_ne_zero.mp hpos
    simp [needs_upload, h0]

/-- C5: the Bounded Retry Submitter issues every submission round strictly
before the deadline `maxDur` past the start, and a transaction that is
never observed confirmed is reported in the unconfirmed list. -/
theorem retry_submitter_bounded (conf : Nat → Transaction → Bool)
    (pause maxDur : Nat) (txs : List Transaction) :
    (∀ s ∈ (sendTransactionsWithRetry conf pause maxDur txs).roundStarts,
      s < maxDur)
    ∧ (∀ tx ∈ txs, (∀ n, conf n tx = false) →
        tx ∈ (sendTransactionsWithRetry conf pause maxDur txs).unconfirmed) := by
  constructor
  · intro s hs
    exact retryRounds_starts_lt conf pause maxDur (maxDur + 1) 0 txs s hs
  · intro tx htx hnever
    exact retryRounds_unconfirmed conf pause maxDur tx hnever
      (maxDur + 1) 0 txs htx

/-- C7: when the Funds Preflight aborts for insufficient balance, no
transaction has been built and no submission round has been issued: the
run terminates with the shortfall panic before any network mutation. -/
theorem preflight_abort_before_mutation (env : Env) (pid : Pubkey)
    (col : List GeneratedMerkleTree) (signer : Pubkey) (bh bal : Nat)
    (hc : env.readCollection = some col) (hk : env.readKeypair = some signer)
    (hbh : env.getLatestBlockhash = some bh)
    (hbal : env.getBalance = some bal)
    (hlt : bal < (col.filter
        (fun t => t.merkle_root_upload_authority == signer)).length
      * DEFAULT_TARGET_LAMPORTS_PER_SIGNATURE) :
    abortsPreflight (upload_merkle_root env pid) = true
    ∧ (upload_merkle_root env pid).transactions = []
    ∧ (upload_merkle_root env pid).retry = ⟨[], []⟩
    ∧ (upload_merkle_root env pid).returned = none := by
  rw [run_preflight_lt env pid col signer bh bal hc hk hbh hbal hlt]
  exact ⟨rfl, rfl, rfl, rfl⟩

/-- C8: the deposit reported by the Funds Preflight abort is the shortfall
`desired - balance` rounded up to the next whole coin: it is computed as
`(desired - balance + LAMPORTS_PER_SOL - 1) / LAMPORTS_PER_SOL` and is
exactly the least number of whole coins covering the shortfall. -/
theorem shortfall_rounded_up (env : Env) (pid : Pubkey)
    (col : List GeneratedMerkleTree) (signer : Pubkey) (bh bal : Nat)
    (hc : env.readCollection = some col) (hk : env.readKeypair = some signer)
    (hbh : env.getLatestBlockhash = some bh)
    (hbal : env.getBalance = some bal)
    (hlt : bal < (col.filter
        (fun t => t.merkle_root_upload_authority == signer)).length
      * DEFAULT_TARGET_LAMPORTS_PER_SIGNATURE) :
    (upload_merkle_root env pid).panicked
      = some (.insufficientFunds
          ((col.filter
              (fun t => t.merkle_root_upload_authority == signer)).length
            * DEFAULT_TARGET_LAMPORTS_PER_SIGNATURE)
          bal
          (((col.filter
                (fun t => t.merkle_root_upload_authority == signer)).length
              * DEFAULT_TARGET_LAMPORTS_PER_SIGNATURE
            - bal + LAMPORTS_PER_SOL - 1) / LAMPORTS_PER_SOL))
    ∧ ((col.filter
          (fun t => t.merkle_root_upload_authority == signer)).length
        * DEFAULT_TARGET_LAMPORTS_PER_SIGNATURE - bal)
      ≤ (((col.filter
            (fun t => t.merkle_root_upload_authority == signer)).length
          * DEFAULT_TARGET_LAMPORTS_PER_SIGNATURE
        - bal + LAMPORTS_PER_SOL - 1) / LAMPORTS_PER_SOL) * LAMPORTS_PER_SOL
    ∧ ∀ m : Nat,
        ((col.filter
            (fun t => t.merkle_root_upload_authority == signer)).length
          * DEFAULT_TARGET_LAMPORTS_PER_SIGNATURE - bal)
          ≤ m * LAMPORTS_PER_SOL →
        (((col.filter
              (fun t => t.merkle_root_upload_authority == signer)).length
            * DEFAULT_TARGET_LAMPORTS_PER_SIGNATURE
          - bal + LAMPORTS_PER_SOL - 1) / LAMPORTS_PER_SOL) ≤ m := by
  rw [run_preflight_lt env pid col signer bh bal hc hk hbh hbal hlt]
  exact ⟨rfl, (deposit_ceil_char _).1, (deposit_ceil_char _).2⟩

/-- C9: the entry point never produces the `Err` variant of its declared
result type: every failure mode is a panic, so whenever the run returns a
value at all that value is `Ok(())`. -/
theorem upload_merkle_root_never_err (env : Env) (pid : Pubkey) :
    (upload_merkle_root env pid).returned = none
      ∨ (upload_merkle_root env pid).returned = some (.ok ()) := by
  rcases run_cases env pid with ⟨_, hret, _, _, _⟩ |
    ⟨col, signer, bh, bal, upd, _, _, _, _, _, _, heq⟩
  · exact Or.inl hret
  · right
    rw [heq]

/-- C2: no transaction is ever built for an account whose current root
has nonzero funds claimed: if the fetched account of some address carries
a root with `total_funds_claimed > 0`, then no tree targeting that address
is collected for update and no built transaction addresses it; and every
tree that is collected had a successfully fetched account with either no
root on record or zero funds claimed. -/
theorem no_transaction_for_claimed_root (env : Env) (pid : Pubkey)
    (tree : GeneratedMerkleTree) (acc : TipDistributionAccount)
    (mr : MerkleRootRecord)
    (hacc : env.getAccount tree.tip_distribution_account = .ok acc)
    (hmr : acc.merkle_root = some mr)
    (hpos : 0 < mr.total_funds_claimed) :
    ((upload_merkle_root env pid).treesNeedingUpdate.filter
        (fun t => t.tip_distribution_account
          == tree.tip_distribution_account) = [])
    ∧ ((upload_merkle_root env pid).transactions.filter
        (fun tx => tx.instructions.map
            (fun ix => ix.accounts.tip_distribution_account)
          == [tree.tip_distribution_account]) = [])
    ∧ (∀ t, t ∈ (upload_merkle_root env pid).treesNeedingUpdate →
        ∃ a, env.getAccount t.tip_distribution_account = .ok a
          ∧ (a.merkle_root = none
             ∨ ∃ m2, a.merkle_root = some m2
                 ∧ m2.total_funds_claimed = 0)) := by
  have hnotmem : ∀ t, t ∈ (upload_merkle_root env pid).treesNeedingUpdate →
      t.tip_distribution_account ≠ tree.tip_distribution_account := by
    intro t ht he
    obtain ⟨a, ha, hn⟩ := mem_update_fetch_ok env pid t ht
    rw [he, hacc] at ha
    cases ha
    unfold needs_upload at hn
    rw [hmr] at hn
    simp at hn
    omega
  refine ⟨?_, ?_, ?_⟩
  · rw [List.filter_eq_nil_iff]
    intro t ht
    simp [hnotmem t ht]
  · rw [List.filter_eq_nil_iff]
    intro tx htx
    rcases run_cases env pid with ⟨_, _, _, htxs, _⟩ |
      ⟨col, signer, bh, bal, upd, _, _, _, _, _, hst, heq⟩
    · rw [htxs] at htx
      exact absurd htx (List.not_mem_nil tx)
    · rw [heq] at htx
      obtain ⟨t, hmem, he⟩ := List.mem_map.mp htx
      have ht : t ∈ (upload_merkle_root env pid).treesNeedingUpdate := by
        rw [heq]
        exact hmem
      have hne := hnotmem t ht
      rw [← he]
      simp [buildTransaction, Transaction.new_signed_with_payer,
        upload_merkle_root_ix, hne]
  · intro t ht
    obtain ⟨a, ha, hn⟩ := mem_update_fetch_ok env pid t ht
    refine ⟨a, ha, ?_⟩
    cases hm : a.merkle_root with
    | none => exact Or.inl rfl
    | some m2 =>
        right
        refine ⟨m2, rfl, ?_⟩
        unfold needs_upload at hn
        rw [hm] at hn
        simp at hn
        exact hn.1

/-- C6: each tree needing update yields exactly one transaction holding
exactly one instruction whose arguments are that tree's root bytes,
`max_total_claim` and `max_num_nodes`, whose accounts are the
configuration address derived from the program id and the fixed seed
(identical in every transaction), the signer as upload authority and the
tree's distribution account; the signer is the fee payer and sole signer
and every transaction carries the single validity token of the run. -/
theorem transaction_builder_shape (env : Env) (pid : Pubkey)
    (col : List GeneratedMerkleTree) (signer : Pubkey) (bh bal : Nat)
    (upd : List GeneratedMerkleTree)
    (hc : env.readCollection = some col) (hk : env.readKeypair = some signer)
    (hbh : env.getLatestBlockhash = some bh)
    (hbal : env.getBalance = some bal)
    (hge : ¬ bal < (col.filter
        (fun t => t.merkle_root_upload_authority == signer)).length
      * DEFAULT_TARGET_LAMPORTS_PER_SIGNATURE)
    (hst : stalenessLoop env.getAccount
        (col.filter (fun t => t.merkle_root_upload_authority == signer))
      = .ok upd) :
    ((upload_merkle_root env pid).transactions
        = (upload_merkle_root env pid).treesNeedingUpdate.map
            (buildTransaction pid
              (env.find_program_address Config.SEED pid) signer bh))
    ∧ ∀ tx ∈ (upload_merkle_root env pid).transactions,
        tx.fee_payer = some signer
        ∧ tx.signers = [signer]
        ∧ tx.recent_blockhash = bh
        ∧ ∃ tree ∈ (upload_merkle_root env pid).treesNeedingUpdate,
            tx.instructions
              = [⟨pid,
                  ⟨tree.merkle_root, tree.max_total_claim,
                    tree.max_num_nodes⟩,
                  ⟨env.find_program_address Config.SEED pid, signer,
                    tree.tip_distribution_account⟩⟩] := by
  rw [run_success env pid col signer bh bal upd hc hk hbh hbal hge hst]
  refine ⟨rfl, ?_⟩
  intro tx htx
  obtain ⟨tree, hmem, he⟩ := List.mem_map.mp htx
  rw [← he]
  exact ⟨rfl, rfl, rfl, tree, hmem, rfl⟩

/-- C10: if fetching the on-ledger account of a candidate tree fails
(including the account not being found), the run aborts in the staleness
loop with nothing built or submitted; membership in the
trees-needing-update list always comes from a successfully fetched and
deserialized account, never from a failed fetch. -/
theorem fetch_failure_aborts (env : Env) (pid : Pubkey)
    (col : List GeneratedMerkleTree) (signer : Pubkey) (bh bal : Nat)
    (tree : GeneratedMerkleTree)
    (hc : env.readCollection = some col) (hk : env.readKeypair = some signer)
    (hbh : env.getLatestBlockhash = some bh)
    (hbal : env.getBalance = some bal)
    (hge : ¬ bal < (col.filter
        (fun t => t.merkle_root_upload_authority == signer)).length
      * DEFAULT_TARGET_LAMPORTS_PER_SIGNATURE)
    (hmem : tree ∈ col.filter
        (fun t => t.merkle_root_upload_authority == signer))
    (hfail : env.getAccount tree.tip_distribution_account = .fetchErr) :
    (∃ pk, (upload_merkle_root env pid).panicked
          = some (.accountFetchFailed pk)
        ∨ (upload_merkle_root env pid).panicked
          = some (.accountDeserializeFailed pk))
    ∧ (upload_merkle_root env pid).treesNeedingUpdate = []
    ∧ (upload_merkle_root env pid).transactions = []
    ∧ (upload_merkle_root env pid).retry = ⟨[], []⟩
    ∧ (∀ env2 pid2 t, t ∈ (upload_merkle_root env2 pid2).treesNeedingUpdate →
        ∃ acc, env2.getAccount t.tip_distribution_account = .ok acc) := by
  obtain ⟨k, hkerr⟩ :=
    stalenessLoop_fail_of_mem env.getAccount tree _ hmem hfail
  rw [run_staleness_error env pid col signer bh bal k hc hk hbh hbal hge hkerr]
  obtain ⟨pk, hpk⟩ := stalenessLoop_error_kind env.getAccount _ k hkerr
  refine ⟨⟨pk, ?_⟩, rfl, rfl, rfl, ?_⟩
  · cases hpk with
    | inl h => left; rw [h]; rfl
    | inr h => right; rw [h]; rfl
  · intro env2 pid2 t ht
    obtain ⟨acc, ha, _⟩ := mem_update_fetch_ok env2 pid2 t ht
    exact ⟨acc, ha⟩

/-! ### Concrete environments exercising the theorems -/

def exTree : GeneratedMerkleTree := ⟨11, 5, [1, 2], 100, 10⟩

def exTreeOther : GeneratedMerkleTree := ⟨12, 6, [3], 50, 5⟩

def exCol : List GeneratedMerkleTree := [exTree, exTreeOther]

def exEnv : Env :=
  ⟨some exCol, some 5, fun _ pid => pid + 1000, some 42, some 100000,
    fun _ => .ok ⟨none⟩, fun _ _ => true, 1⟩

def exEnvPoor : Env :=
  ⟨some exCol, some 5, fun _ pid => pid + 1000, some 42, some 9999,
    fun _ => .ok ⟨none⟩, fun _ _ => true, 1⟩

def exEnvClaimed : Env :=
  ⟨some exCol, some 5, fun _ pid => pid + 1000, some 42, some 100000,
    fun _ => .ok ⟨some ⟨[9], 500⟩⟩, fun _ _ => true, 1⟩

def exEnvFetchFail : Env :=
  ⟨some exCol, some 5, fun _ pid => pid + 1000, some 42, some 100000,
    fun _ => .fetchErr, fun _ _ => true, 1⟩

def exTx : Transaction := ⟨[], none, [], 0⟩

/-! ### Witnesses -/

/-- Witness for C1 at a concrete run. -/
theorem staleness_decision_table_witness :
    (upload_merkle_root exEnv 7).treesNeedingUpdate
      = (upload_merkle_root exEnv 7).selected.filter
          (fetchedNeeds exEnv.getAccount) :=
  (staleness_decision_table exEnv 7 exCol 5 42 100000 [exTree]
    rfl rfl rfl rfl (by decide) rfl).1

/-- Witness for C2 at a concrete run whose fetched account shows 500
funds claimed. -/
theorem no_transaction_for_claimed_root_witness :
    (upload_merkle_root exEnvClaimed 7).treesNeedingUpdate.filter
        (fun t => t.tip_distribution_account
          == exTree.tip_distribution_account) = [] :=
  (no_transaction_for_claimed_root exEnvClaimed 7 exTree ⟨some ⟨[9], 500⟩⟩
    ⟨[9], 500⟩ rfl rfl (by decide)).1

/-- Witness for C3 at a concrete run. -/
theorem tree_selector_filter_witness :
    (upload_merkle_root exEnv 7).selected
      = exCol.filter (fun t => t.merkle_root_upload_authority == 5) :=
  (tree_selector_filter exEnv 7 exCol 5 42 rfl rfl rfl).1

/-- Witness for C4 at a concrete run one lamport short. -/
theorem funds_preflight_boundary_witness :
    abortsPreflight (upload_merkle_root exEnvPoor 7) = true ↔
      9999 < (exCol.filter
          (fun t => t.merkle_root_upload_authority == 5)).length
        * DEFAULT_TARGET_LAMPORTS_PER_SIGNATURE :=
  (funds_preflight_boundary exEnvPoor 7 exCol 5 42 9999 rfl rfl rfl rfl).1

/-- Witness for C5 with a transaction that never confirms. -/
theorem retry_submitter_bounded_witness :
    exTx ∈ (sendTransactionsWithRetry (fun _ _ => false) 1 60
      [exTx]).unconfirmed :=
  (retry_submitter_bounded (fun _ _ => false) 1 60 [exTx]).2 exTx
    (List.mem_singleton.mpr rfl) (fun _ => rfl)

/-- Witness for C6 at a concrete run. -/
theorem transaction_builder_shape_witness :
    (upload_merkle_root exEnv 7).transactions
      = (upload_merkle_root exEnv 7).treesNeedingUpdate.map
          (buildTransaction 7 (exEnv.find_program_address Config.SEED 7)
            5 42) :=
  (transaction_builder_shape exEnv 7 exCol 5 42 100000 [exTree]
    rfl rfl rfl rfl (by decide) rfl).1

/-- Witness for C7 at a concrete run one lamport short. -/
theorem preflight_abort_before_mutation_witness :
    abortsPreflight (upload_merkle_root exEnvPoor 7) = true
    ∧ (upload_merkle_root exEnvPoor 7).transactions = []
    ∧ (upload_merkle_root exEnvPoor 7).retry = ⟨[], []⟩
    ∧ (upload_merkle_root exEnvPoor 7).returned = none :=
  preflight_abort_before_mutation exEnvPoor 7 exCol 5 42 9999
    rfl rfl rfl rfl (by decide)

/-- Witness for C8 at a concrete run one lamport short. -/
theorem shortfall_rounded_up_witness :
    (upload_merkle_root exEnvPoor 7).panicked
      = some (.insufficientFunds
          ((exCol.filter
              (fun t => t.merkle_root_upload_authority == 5)).length
            * DEFAULT_TARGET_LAMPORTS_PER_SIGNATURE)
          9999
          (((exCol.filter
                (fun t => t.merkle_root_upload_authority == 5)).length
              * DEFAULT_TARGET_LAMPORTS_PER_SIGNATURE
            - 9999 + LAMPORTS_PER_SOL - 1) / LAMPORTS_PER_SOL)) :=
  (shortfall_rounded_up exEnvPoor 7 exCol 5 42 9999
    rfl rfl rfl rfl (by decide)).1

/-- Witness for C10 at a concrete run whose account fetches fail. -/
theorem fetch_failure_aborts_witness :
    (upload_merkle_root exEnvFetchFail 7).transactions = [] :=
  (fetch_failure_aborts exEnvFetchFail 7 exCol 5 42 100000 exTree
    rfl rfl rfl rfl (by decide) (by decide) rfl).2.2.1

end MerkleRootUpload
